import Mathlib

/-!
Verification development for the typed error-classification and
recovery-dispatch runtime described by the repository's design corpus
(the "recovery object" / checked-vs-unchecked error model of
src/2016-02-26-Errors/Round2/error-types-and-json-parse/README.md,
section "The Recovery Method", and the taxonomy of
src/unnamed/part_001, section "Differentiating types of errors").

The corpus itself ships no implementation of this runtime, only design
prose and straw-man snippets; the spec defines the component.  All
definitions below are therefore modelled from the spec, faithful to its
words, and the README prose where it gives the concrete semantics.
-/

namespace RecoveryRuntime

/-- Modelled from the spec: the Error Classification Model's closed
taxonomy (spec section 3, "ErrorKind"); no implementation exists in src/,
only the prose list in src/unnamed/part_001 ("Differentiating types of
errors": programmer/unexpected vs operational/expected errors). -/
inductive ErrorKind : Type where
  | Unchecked : ErrorKind
  | Checked : ErrorKind
deriving DecidableEq, Repr

/-- Modelled from the spec: the ErrorValue carrier (spec section 3):
discriminant, kind, message, optional cause forming a singly linked
causal chain, and the origin capture recorded at the raise site.  No
implementation exists in src/.  The inductive nesting through Option
makes every constructed chain finite by construction. -/
inductive ErrorValue : Type where
  | mk (kind : ErrorKind) (discriminant : String) (message : String)
      (origin : List String) (cause : Option ErrorValue) : ErrorValue

/-- Kind selector of an ErrorValue. -/
def ErrorValue.kind : ErrorValue → ErrorKind
  | .mk k _ _ _ _ => k

/-- Discriminant selector of an ErrorValue. -/
def ErrorValue.discriminant : ErrorValue → String
  | .mk _ d _ _ _ => d

/-- Message selector of an ErrorValue. -/
def ErrorValue.message : ErrorValue → String
  | .mk _ _ m _ _ => m

/-- Origin selector of an ErrorValue. -/
def ErrorValue.origin : ErrorValue → List String
  | .mk _ _ _ o _ => o

/-- Cause selector of an ErrorValue. -/
def ErrorValue.cause : ErrorValue → Option ErrorValue
  | .mk _ _ _ _ c => c

/-- Causal chain of an ErrorValue, the value itself first, then its
cause, the cause's cause, and so on (spec glossary, "Causal chain"). -/
def selfChain : ErrorValue → List ErrorValue
  | .mk k d m o none => [.mk k d m o none]
  | .mk k d m o (some p) => .mk k d m o (some p) :: selfChain p

/-- Length of the causal chain. -/
def chainLength (e : ErrorValue) : Nat :=
  (selfChain e).length

/-- Origin captures of the whole causal chain, in chain order. -/
def chainOrigins (e : ErrorValue) : List (List String) :=
  (selfChain e).map ErrorValue.origin

/-- Modelled from the spec: wrapping (spec sections 3 and 4.3 step 3): a
fresh raise from a handler is propagated as a new ErrorValue whose cause
is set to the original.  No implementation exists in src/. -/
def setCause : ErrorValue → ErrorValue → ErrorValue
  | .mk k d m o _, orig => .mk k d m o (some orig)

/-- Modelled from the spec: a handler's returned outcome (spec section 3,
"Handler"): a replacement result value, a new ErrorValue to propagate
(raising and rejecting are treated identically), or a suspension that
itself resolves to one of the previous two.  No implementation exists in
src/; the README ("The Recovery Method") says the return value of the
handler would be Promise.resolve'd. -/
inductive HandlerRet (α : Type) : Type where
  | ret (v : α) : HandlerRet α
  | promise (r : HandlerRet α) : HandlerRet α
  | raiseErr (e : ErrorValue) : HandlerRet α

/-- Modelled from the spec: normalization of a handler's returned
outcome, as the README's Promise.resolve of the handler return value:
suspensions are awaited until a plain replacement value or a propagated
ErrorValue remains. -/
def resolve {α : Type} : HandlerRet α → α ⊕ ErrorValue
  | .ret v => Sum.inl v
  | .promise r => resolve r
  | .raiseErr e => Sum.inr e

/-- Modelled from the spec: a recovery handler, a function from the
ErrorValue to an outcome (spec section 3, "Handler"). -/
abbrev Handler (α : Type) : Type :=
  ErrorValue → HandlerRet α

/-- Modelled from the spec: a RecoveryRegistry, a mapping from
discriminant to handler with unique keys (spec section 3,
"RecoveryRegistry"); the README looks handlers up as recovery[err.code].
No implementation exists in src/. -/
abbrev Registry (α : Type) : Type :=
  List (String × Handler α)

/-- Modelled from the spec: registry lookup by discriminant, pure and
side-effect free (spec section 4.2). -/
def lookup {α : Type} (r : Registry α) (d : String) : Option (Handler α) :=
  (r.find? (fun p => p.1 == d)).map (fun p => p.2)

/-- Modelled from the spec: registry registration, adds or replaces the
handler for a discriminant, last write wins (spec section 4.2). -/
def register {α : Type} (r : Registry α) (d : String) (h : Handler α) : Registry α :=
  (d, h) :: r.filter (fun p => p.1 != d)

/-- Modelled from the spec: the two terminal dispatch states of the
engine's state machine (spec section 4.3): Absorbed with the replacement
value, or Escalated with the error handed to the Fatal Escalation Path. -/
inductive DispatchResult (α : Type) : Type where
  | Absorbed (v : α) : DispatchResult α
  | Escalated (e : ErrorValue) : DispatchResult α

/-- Modelled from the spec: the engine's match decision for a raised
error against the in-scope registry stack: Unchecked errors skip registry
lookup entirely; Checked errors are looked up by discriminant in the
in-scope (head) registry only (spec section 4.3 steps 2 and 3). -/
def matchDecision {α : Type} (regs : List (Registry α)) (e : ErrorValue) :
    Option (Handler α) :=
  match e.kind with
  | .Unchecked => none
  | .Checked =>
    match regs with
    | [] => none
    | r :: _ => lookup r e.discriminant

/-- Modelled from the spec: the Dispatch Engine (spec section 4.3); no
implementation exists in src/, only the README's prose algorithm.  The
head of the list is the registry in scope at the raise point; the tail
is the stack of enclosing (caller) registries, consumed one scope per
handler-raised re-dispatch.  An empty list models a call site supplying
no registry.  The second component records, in order, the discriminant of
every handler the engine invokes. -/
def dispatch {α : Type} : List (Registry α) → ErrorValue → DispatchResult α × List String
  | [], e => (.Escalated e, [])
  | r :: outer, e =>
    match e.kind with
    | .Unchecked => (.Escalated e, [])
    | .Checked =>
      match lookup r e.discriminant with
      | none => (.Escalated e, [])
      | some h =>
        match resolve (h e) with
        | Sum.inl v => (.Absorbed v, [e.discriminant])
        | Sum.inr e2 =>
          let p := dispatch outer (setCause e2 e)
          (p.1, e.discriminant :: p.2)

/-- Terminal dispatch state of a raised error (first component of the
instrumented engine). -/
def dispatchResult {α : Type} (regs : List (Registry α)) (e : ErrorValue) :
    DispatchResult α :=
  (dispatch regs e).1

/-- Discriminants of the handlers invoked while dispatching a raised
error, in invocation order (second component of the instrumented
engine). -/
def dispatchTrace {α : Type} (regs : List (Registry α)) (e : ErrorValue) :
    List String :=
  (dispatch regs e).2

/-- Modelled from the spec: the outcome of an operation attempt as seen
by its caller (spec section 4.3 step 3 and section 7): a success value
passes through, a raised error is dispatched, and an Absorbed error's
replacement value becomes the operation's result as if it had
succeeded. -/
def opOutcome {α : Type} (regs : List (Registry α)) (raw : α ⊕ ErrorValue) :
    α ⊕ ErrorValue :=
  match raw with
  | Sum.inl v => Sum.inl v
  | Sum.inr e =>
    match dispatchResult regs e with
    | .Absorbed v => Sum.inl v
    | .Escalated e2 => Sum.inr e2

/-- Modelled from the spec: wrapping every handler of a registry in one
extra suspension layer, the registry-level form of a handler returning a
promise of its outcome instead of the outcome itself. -/
def promisify {α : Type} (r : Registry α) : Registry α :=
  r.map (fun p => (p.1, fun e => HandlerRet.promise (p.2 e)))

lemma lookup_cons {α : Type} (p : String × Handler α) (t : Registry α) (d : String) :
    lookup (p :: t) d = if p.1 == d then some p.2 else lookup t d := by
  by_cases h : (p.1 == d) = true
  · simp [lookup, List.find?_cons_of_pos, h]
  · simp [lookup, List.find?_cons_of_neg, h, Bool.of_not_eq_true h]

lemma lookup_eq_none_of_no_key {α : Type} (r : Registry α) (d : String)
    (hm : ∀ p ∈ r, p.1 ≠ d) : lookup r d = none := by
  induction r with
  | nil => rfl
  | cons p t ih =>
    have hp : (p.1 == d) = false := by
      simpa using hm p (List.mem_cons_self p t)
    rw [lookup_cons, hp]
    exact ih (fun q hq => hm q (List.mem_cons_of_mem p hq))

lemma lookup_promisify {α : Type} (r : Registry α) (d : String) :
    lookup (promisify r) d =
      (lookup r d).map (fun h => fun e => HandlerRet.promise (h e)) := by
  induction r with
  | nil => rfl
  | cons p t ih =>
    by_cases h : (p.1 == d) = true
    · simp [promisify, lookup_cons, h]
    · simp only [promisify, List.map_cons, lookup_cons,
        Bool.of_not_eq_true h, if_false]
      simpa [promisify] using ih

lemma dispatchTrace_head {α : Type} (regs : List (Registry α)) (e : ErrorValue) :
    (dispatch regs e).2.head? = (matchDecision regs e).map (fun _ => e.discriminant) := by
  cases regs with
  | nil => cases he : e.kind <;> simp [dispatch, matchDecision, he]
  | cons r outer =>
    cases he : e.kind with
    | Unchecked => simp [dispatch, matchDecision, he]
    | Checked =>
      cases hl : lookup r e.discriminant with
      | none => simp [dispatch, matchDecision, he, hl]
      | some h =>
        cases hv : resolve (h e) with
        | inl v => simp [dispatch, matchDecision, he, hl, hv]
        | inr e2 => simp [dispatch, matchDecision, he, hl, hv]

/-- Claim C1: for every raised ErrorValue whose kind is Unchecked, and
for every registry stack (including one containing a handler registered
under that error's discriminant), the Dispatch Engine never invokes any
handler (the invocation trace is empty) and always transitions the error
to Escalated, unchanged. -/
theorem claim_C1 {α : Type} (regs : List (Registry α)) (e : ErrorValue)
    (hk : e.kind = ErrorKind.Unchecked) :
    dispatch regs e = (DispatchResult.Escalated e, []) := by
  cases regs with
  | nil => simp [dispatch]
  | cons r outer => simp [dispatch, hk]

/-- Witness for C1: an Unchecked assertion error escalates with no
handler invoked even though the registry holds a handler registered
under its exact discriminant. -/
theorem claim_C1_witness :
    dispatch [[("ASSERTION", fun _ => HandlerRet.ret (0 : Nat))]]
      (ErrorValue.mk ErrorKind.Unchecked "ASSERTION" "assert failed" ["site"] none) =
    (DispatchResult.Escalated
      (ErrorValue.mk ErrorKind.Unchecked "ASSERTION" "assert failed" ["site"] none), []) :=
  claim_C1 [[("ASSERTION", fun _ => HandlerRet.ret (0 : Nat))]]
    (ErrorValue.mk ErrorKind.Unchecked "ASSERTION" "assert failed" ["site"] none) rfl

/-- Claim C2: for every raised Checked ErrorValue whose discriminant has
a registered handler in the in-scope registry, if the handler's outcome
resolves to a replacement value then dispatch transitions to Absorbed
with that value (only that one handler invoked), the caller sees exactly
the outcome of a successful operation returning that value, and no other
registry is consulted: the result is independent of the enclosing
registry stack. -/
theorem claim_C2 {α : Type} (r : Registry α) (outer outer2 : List (Registry α))
    (e : ErrorValue) (h : Handler α) (v : α)
    (hk : e.kind = ErrorKind.Checked)
    (hl : lookup r e.discriminant = some h)
    (hv : resolve (h e) = Sum.inl v) :
    dispatch (r :: outer) e = (DispatchResult.Absorbed v, [e.discriminant]) ∧
    opOutcome (r :: outer) (Sum.inr e) = opOutcome (r :: outer) (Sum.inl v) ∧
    dispatch (r :: outer) e = dispatch (r :: outer2) e := by
  have h1 : dispatch (r :: outer) e = (DispatchResult.Absorbed v, [e.discriminant]) := by
    simp [dispatch, hk, hl, hv]
  have h2 : dispatch (r :: outer2) e = (DispatchResult.Absorbed v, [e.discriminant]) := by
    simp [dispatch, hk, hl, hv]
  refine ⟨h1, ?_, h1.trans h2.symm⟩
  simp [opOutcome, dispatchResult, h1]

/-- Witness for C2: the spec's concrete scenario 1, an ENOENT error with
a registry mapping ENOENT to a handler returning the replacement value
"default-content" is Absorbed with that value. -/
theorem claim_C2_witness :
    dispatch [[("ENOENT", fun _ => HandlerRet.ret "default-content")]]
      (ErrorValue.mk ErrorKind.Checked "ENOENT" "no such file" ["readFile"] none) =
      (DispatchResult.Absorbed "default-content", ["ENOENT"]) ∧
    opOutcome [[("ENOENT", fun _ => HandlerRet.ret "default-content")]]
      (Sum.inr (ErrorValue.mk ErrorKind.Checked "ENOENT" "no such file" ["readFile"] none)) =
    opOutcome [[("ENOENT", fun _ => HandlerRet.ret "default-content")]]
      (Sum.inl "default-content") ∧
    dispatch [[("ENOENT", fun _ => HandlerRet.ret "default-content")]]
      (ErrorValue.mk ErrorKind.Checked "ENOENT" "no such file" ["readFile"] none) =
    dispatch [[("ENOENT", fun _ => HandlerRet.ret "default-content")], []]
      (ErrorValue.mk ErrorKind.Checked "ENOENT" "no such file" ["readFile"] none) :=
  claim_C2 [("ENOENT", fun _ => HandlerRet.ret "default-content")] [] [[]]
    (ErrorValue.mk ErrorKind.Checked "ENOENT" "no such file" ["readFile"] none)
    (fun _ => HandlerRet.ret "default-content") "default-content" rfl rfl rfl

/-- Claim C3: for every raised Checked ErrorValue with no handler
registered under its discriminant in the supplied registry, and likewise
when no registry is supplied at all, dispatch reaches Escalated carrying
the original ErrorValue itself with no handler invoked; hence the causal
chain length and every origin capture are unchanged by the dispatch
process. -/
theorem claim_C3 {α : Type} (r : Registry α) (outer : List (Registry α))
    (e : ErrorValue) (hk : e.kind = ErrorKind.Checked)
    (hl : lookup r e.discriminant = none) :
    dispatch (r :: outer) e = (DispatchResult.Escalated e, []) ∧
    dispatch ([] : List (Registry α)) e = (DispatchResult.Escalated e, []) ∧
    ∀ e2, (dispatch (r :: outer) e).1 = DispatchResult.Escalated e2 →
      chainLength e2 = chainLength e ∧ chainOrigins e2 = chainOrigins e := by
  have h1 : dispatch (r :: outer) e = (DispatchResult.Escalated e, []) := by
    simp [dispatch, hk, hl]
  refine ⟨h1, by simp [dispatch], ?_⟩
  intro e2 h2
  rw [h1] at h2
  cases h2
  exact ⟨rfl, rfl⟩

/-- Witness for C3: the spec's concrete scenario 2, an EISDIR error
against a registry holding only an ENOENT handler escalates unchanged,
with chain length and origins intact. -/
theorem claim_C3_witness :
    dispatch [[("ENOENT", fun _ => HandlerRet.ret (0 : Nat))]]
      (ErrorValue.mk ErrorKind.Checked "EISDIR" "is a directory" ["readFile"] none) =
      (DispatchResult.Escalated
        (ErrorValue.mk ErrorKind.Checked "EISDIR" "is a directory" ["readFile"] none), []) ∧
    dispatch ([] : List (Registry Nat))
      (ErrorValue.mk ErrorKind.Checked "EISDIR" "is a directory" ["readFile"] none) =
      (DispatchResult.Escalated
        (ErrorValue.mk ErrorKind.Checked "EISDIR" "is a directory" ["readFile"] none), []) ∧
    ∀ e2, (dispatch [[("ENOENT", fun _ => HandlerRet.ret (0 : Nat))]]
        (ErrorValue.mk ErrorKind.Checked "EISDIR" "is a directory" ["readFile"] none)).1 =
        DispatchResult.Escalated e2 →
      chainLength e2 =
        chainLength (ErrorValue.mk ErrorKind.Checked "EISDIR" "is a directory" ["readFile"] none) ∧
      chainOrigins e2 =
        chainOrigins (ErrorValue.mk ErrorKind.Checked "EISDIR" "is a directory" ["readFile"] none) :=
  claim_C3 [("ENOENT", fun _ => HandlerRet.ret (0 : Nat))] []
    (ErrorValue.mk ErrorKind.Checked "EISDIR" "is a directory" ["readFile"] none) rfl rfl

/-- Claim C4: for every Checked ErrorValue whose matched handler itself
raises or returns a new ErrorValue, the propagated error is the new one
with its cause field set to the original ErrorValue, and it is
re-dispatched against the enclosing (caller's) registry stack rather
than the registry already consumed by the failed attempt. -/
theorem claim_C4 {α : Type} (r : Registry α) (outer : List (Registry α))
    (e : ErrorValue) (h : Handler α) (e2 : ErrorValue)
    (hk : e.kind = ErrorKind.Checked)
    (hl : lookup r e.discriminant = some h)
    (hv : resolve (h e) = Sum.inr e2) :
    (setCause e2 e).cause = some e ∧
    dispatch (r :: outer) e =
      ((dispatch outer (setCause e2 e)).1,
        e.discriminant :: (dispatch outer (setCause e2 e)).2) := by
  constructor
  · cases e2 with
    | mk k d m o c => rfl
  · simp [dispatch, hk, hl, hv]

/-- Witness for C4: the spec's concrete scenario 3, a handler for ENOENT
that itself raises an ENOSPC error; the propagated ENOSPC error carries
the original ENOENT error as its cause, and re-dispatch consults the
enclosing registry, which absorbs it. -/
theorem claim_C4_witness :
    (setCause (ErrorValue.mk ErrorKind.Checked "ENOSPC" "disk full" ["handler"] none)
        (ErrorValue.mk ErrorKind.Checked "ENOENT" "no such file" ["readFile"] none)).cause =
      some (ErrorValue.mk ErrorKind.Checked "ENOENT" "no such file" ["readFile"] none) ∧
    dispatch
      [[("ENOENT", fun _ => HandlerRet.raiseErr
          (ErrorValue.mk ErrorKind.Checked "ENOSPC" "disk full" ["handler"] none))],
       [("ENOSPC", fun _ => HandlerRet.ret (7 : Nat))]]
      (ErrorValue.mk ErrorKind.Checked "ENOENT" "no such file" ["readFile"] none) =
      ((dispatch [[("ENOSPC", fun _ => HandlerRet.ret (7 : Nat))]]
          (setCause (ErrorValue.mk ErrorKind.Checked "ENOSPC" "disk full" ["handler"] none)
            (ErrorValue.mk ErrorKind.Checked "ENOENT" "no such file" ["readFile"] none))).1,
        "ENOENT" ::
          (dispatch [[("ENOSPC", fun _ => HandlerRet.ret (7 : Nat))]]
            (setCause (ErrorValue.mk ErrorKind.Checked "ENOSPC" "disk full" ["handler"] none)
              (ErrorValue.mk ErrorKind.Checked "ENOENT" "no such file" ["readFile"] none))).2) :=
  claim_C4
    [("ENOENT", fun _ => HandlerRet.raiseErr
        (ErrorValue.mk ErrorKind.Checked "ENOSPC" "disk full" ["handler"] none))]
    [[("ENOSPC", fun _ => HandlerRet.ret (7 : Nat))]]
    (ErrorValue.mk ErrorKind.Checked "ENOENT" "no such file" ["readFile"] none)
    (fun _ => HandlerRet.raiseErr
      (ErrorValue.mk ErrorKind.Checked "ENOSPC" "disk full" ["handler"] none))
    (ErrorValue.mk ErrorKind.Checked "ENOSPC" "disk full" ["handler"] none)
    rfl rfl rfl

/-- Claim C5: the dispatch match decision depends only on the error's
kind and its discriminant compared for equality against registry keys,
never on the message field: two errors differing only in message, raised
against the same registry stack, yield the same match decision, and the
first handler invocation recorded by the engine (if any) is the same. -/
theorem claim_C5 {α : Type} (regs : List (Registry α)) (k : ErrorKind)
    (d : String) (o : List String) (c : Option ErrorValue) (m1 m2 : String) :
    matchDecision regs (ErrorValue.mk k d m1 o c) =
      matchDecision regs (ErrorValue.mk k d m2 o c) ∧
    (dispatchTrace regs (ErrorValue.mk k d m1 o c)).head? =
      (dispatchTrace regs (ErrorValue.mk k d m2 o c)).head? := by
  have hmd : matchDecision regs (ErrorValue.mk k d m1 o c) =
      matchDecision regs (ErrorValue.mk k d m2 o c) := by
    cases k <;> cases regs <;>
      simp [matchDecision, ErrorValue.kind, ErrorValue.discriminant]
  refine ⟨hmd, ?_⟩
  show (dispatch regs (ErrorValue.mk k d m1 o c)).2.head? =
    (dispatch regs (ErrorValue.mk k d m2 o c)).2.head?
  rw [dispatchTrace_head, dispatchTrace_head, hmd]
  rfl

/-- Claim C9: handler return values are uniformly normalized before
becoming the operation's resolution value: wrapping every handler of the
in-scope registry in an extra suspension layer leaves the whole dispatch
unchanged, and in particular a matched handler returning a plain value v
and one returning a suspension resolving to v both end Absorbed with
v. -/
theorem claim_C9 {α : Type} :
    (∀ (r : Registry α) (outer : List (Registry α)) (e : ErrorValue),
      dispatch (promisify r :: outer) e = dispatch (r :: outer) e) ∧
    (∀ (outer : List (Registry α)) (e : ErrorValue) (v : α),
      e.kind = ErrorKind.Checked →
      dispatch ([(e.discriminant, fun _ => HandlerRet.ret v)] :: outer) e =
        (DispatchResult.Absorbed v, [e.discriminant]) ∧
      dispatch ([(e.discriminant, fun _ => HandlerRet.promise (HandlerRet.ret v))] :: outer) e =
        (DispatchResult.Absorbed v, [e.discriminant])) := by
  constructor
  · intro r outer e
    cases he : e.kind with
    | Unchecked => simp [dispatch, he]
    | Checked =>
      cases hl : lookup r e.discriminant with
      | none => simp [dispatch, he, lookup_promisify, hl]
      | some h =>
        have : resolve (HandlerRet.promise (h e)) = resolve (h e) := rfl
        cases hv : resolve (h e) with
        | inl v => simp [dispatch, he, lookup_promisify, hl, resolve, hv]
        | inr e2 => simp [dispatch, he, lookup_promisify, hl, resolve, hv]
  · intro outer e v hk
    constructor
    · simp [dispatch, hk, lookup_cons, resolve]
    · simp [dispatch, hk, lookup_cons, resolve]

/-- Witness for C9: an ENOENT error dispatched against a handler that
returns "default" directly and against one that returns a suspension
resolving to "default" produces the identical Absorbed outcome. -/
theorem claim_C9_witness :
    dispatch [[("ENOENT", fun _ => HandlerRet.ret "default")]]
      (ErrorValue.mk ErrorKind.Checked "ENOENT" "gone" ["open"] none) =
      (DispatchResult.Absorbed "default", ["ENOENT"]) ∧
    dispatch [[("ENOENT", fun _ => HandlerRet.promise (HandlerRet.ret "default"))]]
      (ErrorValue.mk ErrorKind.Checked "ENOENT" "gone" ["open"] none) =
      (DispatchResult.Absorbed "default", ["ENOENT"]) :=
  claim_C9.2 []
    (ErrorValue.mk ErrorKind.Checked "ENOENT" "gone" ["open"] none) "default" rfl

/-- Claim C10: for every Checked ErrorValue, dispatching with an
in-scope registry whose keys all differ from the error's discriminant
produces exactly the same outcome as dispatching with no registry at
all, and no handler of that registry is ever invoked (the trace is
empty). -/
theorem claim_C10 {α : Type} (r : Registry α) (outer : List (Registry α))
    (e : ErrorValue) (hk : e.kind = ErrorKind.Checked)
    (hm : ∀ p ∈ r, p.1 ≠ e.discriminant) :
    dispatch (r :: outer) e = dispatch ([] : List (Registry α)) e ∧
    dispatchTrace (r :: outer) e = [] := by
  have hl : lookup r e.discriminant = none := lookup_eq_none_of_no_key r _ hm
  constructor
  · simp [dispatch, hk, hl]
  · show (dispatch (r :: outer) e).2 = []
    simp [dispatch, hk, hl]

/-- Witness for C10: an EACCES error against a registry handling only
ENOENT and EISDIR behaves exactly as with no registry, and invokes no
handler. -/
theorem claim_C10_witness :
    dispatch [[("ENOENT", fun _ => HandlerRet.ret (1 : Nat)),
               ("EISDIR", fun _ => HandlerRet.ret (2 : Nat))]]
      (ErrorValue.mk ErrorKind.Checked "EACCES" "denied" ["open"] none) =
      dispatch ([] : List (Registry Nat))
        (ErrorValue.mk ErrorKind.Checked "EACCES" "denied" ["open"] none) ∧
    dispatchTrace [[("ENOENT", fun _ => HandlerRet.ret (1 : Nat)),
                    ("EISDIR", fun _ => HandlerRet.ret (2 : Nat))]]
      (ErrorValue.mk ErrorKind.Checked "EACCES" "denied" ["open"] none) = [] :=
  claim_C10
    [("ENOENT", fun _ => HandlerRet.ret (1 : Nat)),
     ("EISDIR", fun _ => HandlerRet.ret (2 : Nat))] []
    (ErrorValue.mk ErrorKind.Checked "EACCES" "denied" ["open"] none) rfl
    (by
      intro p hp
      rcases List.mem_cons.mp hp with rfl | hp2
      · decide
      · rcases List.mem_cons.mp hp2 with rfl | hp3
        · decide
        · exact absurd hp3 (List.not_mem_nil p))

lemma mem_selfChain_self (e : ErrorValue) : e ∈ selfChain e := by
  cases e with
  | mk k d m o c => cases c <;> simp [selfChain]

lemma selfChain_setCause (e2 orig : ErrorValue) :
    selfChain (setCause e2 orig) = setCause e2 orig :: selfChain orig := by
  cases e2 with
  | mk k d m o c => rfl

lemma chainLength_pos (e : ErrorValue) : 0 < chainLength e := by
  cases e with
  | mk k d m o c => cases c <;> simp [chainLength, selfChain]

lemma chainLength_cause {e p : ErrorValue} (h : e.cause = some p) :
    chainLength p < chainLength e := by
  cases e with
  | mk k d m o c =>
    cases c with
    | none => simp [ErrorValue.cause] at h
    | some q =>
      have hq : q = p := by simpa [ErrorValue.cause] using h
      subst hq
      simp [chainLength, selfChain]

lemma cause_of_mem_selfChain {e a : ErrorValue} (h : a ∈ selfChain e) :
    a = e ∨ ∃ p, e.cause = some p ∧ a ∈ selfChain p := by
  cases e with
  | mk k d m o c =>
    cases c with
    | none =>
      left
      simpa [selfChain] using h
    | some p =>
      rw [selfChain, List.mem_cons] at h
      rcases h with h | h
      · exact Or.inl h
      · exact Or.inr ⟨p, rfl, h⟩

lemma selfChain_trans_aux :
    ∀ n (b : ErrorValue), chainLength b ≤ n →
      ∀ a ∈ selfChain b, ∀ x ∈ selfChain a, x ∈ selfChain b := by
  intro n
  induction n with
  | zero =>
    intro b hb
    exact absurd (Nat.lt_of_lt_of_le (chainLength_pos b) hb) (Nat.lt_irrefl 0)
  | succ n ih =>
    intro b hb a ha x hx
    rcases cause_of_mem_selfChain ha with rfl | ⟨p, hp, hap⟩
    · exact hx
    · have hplen : chainLength p ≤ n :=
        Nat.lt_succ_iff.mp (Nat.lt_of_lt_of_le (chainLength_cause hp) hb)
      have hxp : x ∈ selfChain p := ih p hplen a hap x hx
      cases b with
      | mk k d m o c =>
        have hc : c = some p := by simpa [ErrorValue.cause] using hp
        subst hc
        rw [selfChain]
        exact List.mem_cons_of_mem _ hxp

lemma selfChain_trans {a b x : ErrorValue} (hab : a ∈ selfChain b)
    (hxa : x ∈ selfChain a) : x ∈ selfChain b :=
  selfChain_trans_aux (chainLength b) b (Nat.le_refl _) a hab x hxa

lemma dispatch_escalated_mem {α : Type} :
    ∀ (regs : List (Registry α)) (e e2 : ErrorValue),
      (dispatch regs e).1 = DispatchResult.Escalated e2 → e ∈ selfChain e2 := by
  intro regs
  induction regs with
  | nil =>
    intro e e2 h
    have he : e2 = e := by
      simpa [dispatch] using h.symm
    subst he
    exact mem_selfChain_self _
  | cons r outer ih =>
    intro e e2 h
    cases hk : e.kind with
    | Unchecked =>
      have he : e2 = e := by
        rw [show dispatch (r :: outer) e = (DispatchResult.Escalated e, []) by
          simp [dispatch, hk]] at h
        cases h
        rfl
      subst he
      exact mem_selfChain_self _
    | Checked =>
      cases hl : lookup r e.discriminant with
      | none =>
        have he : e2 = e := by
          rw [show dispatch (r :: outer) e = (DispatchResult.Escalated e, []) by
            simp [dispatch, hk, hl]] at h
          cases h
          rfl
        subst he
        exact mem_selfChain_self _
      | some hd =>
        cases hv : resolve (hd e) with
        | inl v =>
          rw [show dispatch (r :: outer) e = (DispatchResult.Absorbed v, [e.discriminant]) by
            simp [dispatch, hk, hl, hv]] at h
          cases h
        | inr enew =>
          have hrec : (dispatch outer (setCause enew e)).1 = DispatchResult.Escalated e2 := by
            rw [show dispatch (r :: outer) e =
                ((dispatch outer (setCause enew e)).1,
                  e.discriminant :: (dispatch outer (setCause enew e)).2) by
              simp [dispatch, hk, hl, hv]] at h
            exact h
          have hmem : setCause enew e ∈ selfChain e2 := ih (setCause enew e) e2 hrec
          have hin : e ∈ selfChain (setCause enew e) := by
            rw [selfChain_setCause]
            exact List.mem_cons_of_mem _ (mem_selfChain_self e)
          exact selfChain_trans hmem hin

/-- Claim C6: an ErrorValue's kind, discriminant, and origin are fixed
at construction — wrapping only creates a new ErrorValue whose cause
points at the original, preserving the new error's own fields and
placing the original's entire chain, unmodified, as the tail of the new
chain — and whenever dispatch escalates, the originally raised
ErrorValue is still present unmodified inside the escalated error's
causal chain, its origin capture included. -/
theorem claim_C6 {α : Type} :
    (∀ e2 orig : ErrorValue,
      (setCause e2 orig).kind = e2.kind ∧
      (setCause e2 orig).discriminant = e2.discriminant ∧
      (setCause e2 orig).origin = e2.origin ∧
      (setCause e2 orig).cause = some orig ∧
      selfChain (setCause e2 orig) = setCause e2 orig :: selfChain orig) ∧
    (∀ (regs : List (Registry α)) (e e2 : ErrorValue),
      (dispatch regs e).1 = DispatchResult.Escalated e2 →
      e ∈ selfChain e2 ∧ e.origin ∈ chainOrigins e2) := by
  constructor
  · intro e2 orig
    cases e2 with
    | mk k d m o c => exact ⟨rfl, rfl, rfl, rfl, selfChain_setCause _ _⟩
  · intro regs e e2 h
    have hm := dispatch_escalated_mem regs e e2 h
    exact ⟨hm, List.mem_map_of_mem ErrorValue.origin hm⟩

/-- Witness for C6: wrapping an ENOSPC error around an ENOENT error
keeps its fields and chains the original; dispatching the ENOENT error
with no registry escalates it with the error, and its origin capture,
still present in the escalated chain. -/
theorem claim_C6_witness :
    ((setCause (ErrorValue.mk ErrorKind.Checked "ENOSPC" "disk full" ["h"] none)
        (ErrorValue.mk ErrorKind.Checked "ENOENT" "gone" ["g"] none)).cause =
      some (ErrorValue.mk ErrorKind.Checked "ENOENT" "gone" ["g"] none)) ∧
    (ErrorValue.mk ErrorKind.Checked "ENOENT" "gone" ["g"] none) ∈
      selfChain (ErrorValue.mk ErrorKind.Checked "ENOENT" "gone" ["g"] none) ∧
    ["g"] ∈ chainOrigins (ErrorValue.mk ErrorKind.Checked "ENOENT" "gone" ["g"] none) :=
  ⟨((claim_C6 (α := Nat)).1
      (ErrorValue.mk ErrorKind.Checked "ENOSPC" "disk full" ["h"] none)
      (ErrorValue.mk ErrorKind.Checked "ENOENT" "gone" ["g"] none)).2.2.2.1,
   (claim_C6 (α := Nat)).2 ([] : List (Registry Nat))
      (ErrorValue.mk ErrorKind.Checked "ENOENT" "gone" ["g"] none)
      (ErrorValue.mk ErrorKind.Checked "ENOENT" "gone" ["g"] none) rfl⟩

/-- Modelled from the spec: the stored record of one ErrorValue in the
reference-based view of the causal chain (spec section 3: the cause is
an optional reference to an ErrorValue); the cause field holds the index
of the referenced record.  No implementation exists in src/. -/
structure RawError where
  kind : ErrorKind
  discriminant : String
  message : String
  origin : List String
  cause : Option Nat
deriving DecidableEq, Repr

/-- Store of constructed ErrorValue records; a record's identifier is
its index, records are appended in construction order. -/
abbrev Store : Type := List RawError

/-- Cause reference of the record at an index, if any. -/
def causeAt (s : Store) (i : Nat) : Option Nat :=
  (s.get? i).bind (fun r => r.cause)

/-- Fuelled reachability along cause references: does following the
cause chain from the first index reach the second one? -/
def reachesFuel (s : Store) : Nat → Nat → Nat → Bool
  | 0, _, _ => false
  | fuel + 1, i, t =>
    i == t ||
      match causeAt s i with
      | some j => reachesFuel s fuel j t
      | none => false

/-- Modelled from the spec: the construction-time cycle check (spec
section 3: no cycles permitted, construction-time check): setting the
cause of a new record to an existing one would create a cycle exactly
when the existing record's cause chain reaches the new record. -/
def wouldCreateCycle (s : Store) (c target : Nat) : Bool :=
  reachesFuel s (s.length + 1) c target

/-- Modelled from the spec: ErrorValue construction over the store (spec
section 3): the cause, when given, must reference an existing record and
must pass the cycle check, otherwise construction fails; on success the
new record is appended and its identifier returned.  No implementation
exists in src/. -/
def construct (s : Store) (k : ErrorKind) (d m : String) (o : List String)
    (copt : Option Nat) : Option (Store × Nat) :=
  match copt with
  | none => some (s ++ [⟨k, d, m, o, none⟩], s.length)
  | some c =>
    if c < s.length then
      if wouldCreateCycle s c s.length then none
      else some (s ++ [⟨k, d, m, o, some c⟩], s.length)
    else none

/-- Well-formed store: every cause reference points strictly backwards
to an earlier-constructed record. -/
def WFStore (s : Store) : Prop :=
  ∀ i r, s.get? i = some r → ∀ c, r.cause = some c → c < i

/-- Fuelled traversal of the cause chain from an index, materializing
the list of identifiers in chain order; runs out of fuel with none. -/
def chainIds (s : Store) : Nat → Nat → Option (List Nat)
  | 0, _ => none
  | fuel + 1, i =>
    match causeAt s i with
    | none => some [i]
    | some j => (chainIds s fuel j).map (fun l => i :: l)

lemma WFStore_nil : WFStore [] := by
  intro i r h
  simp at h

lemma causeAt_lt {s : Store} (hwf : WFStore s) {i j : Nat}
    (h : causeAt s i = some j) : j < i := by
  unfold causeAt at h
  cases hg : s.get? i with
  | none => rw [hg] at h; simp at h
  | some r =>
    rw [hg] at h
    exact hwf i r hg j (by simpa using h)

lemma chainIds_isSome {s : Store} (hwf : WFStore s) :
    ∀ fuel i, i < fuel → (chainIds s fuel i).isSome = true := by
  intro fuel
  induction fuel with
  | zero =>
    intro i hi
    exact absurd hi (Nat.not_lt_zero i)
  | succ fuel ih =>
    intro i hi
    cases hc : causeAt s i with
    | none => simp [chainIds, hc]
    | some j =>
      have hj : j < i := causeAt_lt hwf hc
      have : (chainIds s fuel j).isSome = true :=
        ih j (Nat.lt_of_lt_of_le hj (Nat.lt_succ_iff.mp hi))
      simp [chainIds, hc, this]

lemma WFStore_append {s : Store} (hwf : WFStore s) (r : RawError)
    (hr : ∀ c, r.cause = some c → c < s.length) : WFStore (s ++ [r]) := by
  intro i q hq c hc
  by_cases hi : i < s.length
  · have hg : (s ++ [r]).get? i = s.get? i := List.get?_append hi
    rw [hg] at hq
    exact hwf i q hq c hc
  · have hge : s.length ≤ i := Nat.le_of_not_lt hi
    rcases Nat.eq_or_lt_of_le hge with heq | hlt
    · rw [← heq] at hq
      rw [List.get?_concat_length] at hq
      have hqr : q = r := by
        injection hq with hq2
        exact hq2.symm
      subst hqr
      rw [← heq]
      exact hr c hc
    · have hg : (s ++ [r]).get? i = none := by
        apply List.get?_eq_none.mpr
        simpa using hlt
      rw [hg] at hq
      cases hq

/-- Claim C7: causal chains are acyclic by construction: an attempted
construction whose cause reference would create a cycle fails (returns
none) at construction time, and every successful construction from a
well-formed store yields a well-formed store in which cause-chain
traversal of every record terminates (materializes within any
sufficient fuel bound, in particular fuel one past the identifier). -/
theorem claim_C7 :
    (∀ (s : Store) (k : ErrorKind) (d m : String) (o : List String) (c : Nat),
      c < s.length → wouldCreateCycle s c s.length = true →
      construct s k d m o (some c) = none) ∧
    (∀ (s : Store) (k : ErrorKind) (d m : String) (o : List String)
      (copt : Option Nat) (s2 : Store) (j : Nat),
      WFStore s → construct s k d m o copt = some (s2, j) →
      WFStore s2 ∧ ∀ i fuel, i < fuel → (chainIds s2 fuel i).isSome = true) := by
  constructor
  · intro s k d m o c hc hcy
    simp [construct, hc, hcy]
  · intro s k d m o copt s2 j hwf hcon
    have hwf2 : WFStore s2 := by
      cases copt with
      | none =>
        have hs2 : s2 = s ++ [⟨k, d, m, o, none⟩] := by
          simp [construct] at hcon
          exact hcon.1.symm
        subst hs2
        exact WFStore_append hwf _ (by intro c hc; cases hc)
      | some c =>
        by_cases hc : c < s.length
        · by_cases hcy : wouldCreateCycle s c s.length = true
          · simp [construct, hc, hcy] at hcon
          · have hs2 : s2 = s ++ [⟨k, d, m, o, some c⟩] := by
              simp [construct, hc, hcy] at hcon
              exact hcon.1.symm
            subst hs2
            refine WFStore_append hwf _ ?_
            intro c2 hc2
            have hcc : c = c2 := by simpa using hc2
            exact hcc ▸ hc
        · simp [construct, hc] at hcon
    exact ⟨hwf2, fun i fuel hif => chainIds_isSome hwf2 fuel i hif⟩

/-- Witness for C7: constructing over an ill-formed store whose cause
chain would loop back onto the new record fails with none, while a
record successfully constructed from the empty store has a cause-chain
traversal that terminates with fuel one. -/
theorem claim_C7_witness :
    construct [⟨ErrorKind.Checked, "E0", "boom", [], some 1⟩]
      ErrorKind.Checked "E1" "again" [] (some 0) = none ∧
    (chainIds [⟨ErrorKind.Checked, "ENOENT", "gone", ["open"], none⟩] 1 0).isSome = true :=
  ⟨claim_C7.1 [⟨ErrorKind.Checked, "E0", "boom", [], some 1⟩]
      ErrorKind.Checked "E1" "again" [] 0 (by decide) (by decide),
   (claim_C7.2 [] ErrorKind.Checked "ENOENT" "gone" ["open"] none
      [⟨ErrorKind.Checked, "ENOENT", "gone", ["open"], none⟩] 0
      WFStore_nil rfl).2 0 1 (by decide)⟩

/-- Modelled from the spec: the state of the Fatal Escalation Path (spec
section 4.4); no implementation exists in src/ — the cited
copytree.js domain error handler only notes that it "might be called
multiple times".  The path keeps the next fresh escalation identifier,
the identifiers already processed, and the externally observable
termination effects it has performed, in order. -/
structure EscState where
  nextId : Nat
  seen : List Nat
  terminations : List ErrorValue

/-- Modelled from the spec: an ErrorValue arriving at the Fatal
Escalation Path together with the escalation identifier attached to it
the first time it passed through the path, if it already did. -/
structure EscInput where
  err : ErrorValue
  escId : Option Nat

/-- Modelled from the spec: one invocation of the Fatal Escalation Path
(spec section 4.4): a first-time escalation performs one termination
effect, attaches a fresh escalation identifier to the ErrorValue and
remembers it; an invocation with an already-seen identifier is a no-op;
an unseen identifier is recorded and terminated once. -/
def fatalEscalate (s : EscState) (x : EscInput) : EscState × EscInput :=
  match x.escId with
  | some i =>
    if i ∈ s.seen then (s, x)
    else ({ s with seen := i :: s.seen, terminations := s.terminations ++ [x.err] }, x)
  | none =>
    ({ nextId := s.nextId + 1, seen := s.nextId :: s.seen,
       terminations := s.terminations ++ [x.err] },
     { err := x.err, escId := some s.nextId })

/-- Repeated invocation of the Fatal Escalation Path, each time with the
state and ErrorValue produced by the previous invocation. -/
def iterateEsc : Nat → EscState × EscInput → EscState × EscInput
  | 0, p => p
  | n + 1, p => iterateEsc n (fatalEscalate p.1 p.2)

lemma fatalEscalate_seen {s : EscState} {x : EscInput} {i : Nat}
    (hid : x.escId = some i) (hseen : i ∈ s.seen) :
    fatalEscalate s x = (s, x) := by
  simp [fatalEscalate, hid, hseen]

lemma iterateEsc_fixed {p : EscState × EscInput}
    (hfix : fatalEscalate p.1 p.2 = p) : ∀ n, iterateEsc n p = p := by
  intro n
  induction n with
  | zero => rfl
  | succ n ih => rw [iterateEsc, hfix, ih]

/-- Claim C8: the Fatal Escalation Path is idempotent: invoking it again
with the ErrorValue carrying the escalation identifier attached by a
previous invocation is a no-op, and for an error arriving without an
identifier, exactly one externally observable termination effect occurs
no matter how many times the path is invoked for that logical
failure. -/
theorem claim_C8 (s : EscState) (x : EscInput) (hid : x.escId = none) :
    fatalEscalate (fatalEscalate s x).1 (fatalEscalate s x).2 = fatalEscalate s x ∧
    ∀ n, 1 ≤ n →
      (iterateEsc n (s, x)).1.terminations = s.terminations ++ [x.err] := by
  have hstep : fatalEscalate s x =
      ({ nextId := s.nextId + 1, seen := s.nextId :: s.seen,
         terminations := s.terminations ++ [x.err] },
       { err := x.err, escId := some s.nextId }) := by
    simp [fatalEscalate, hid]
  have hfix : fatalEscalate (fatalEscalate s x).1 (fatalEscalate s x).2 =
      fatalEscalate s x := by
    rw [hstep]
    exact fatalEscalate_seen rfl (List.mem_cons_self _ _)
  refine ⟨hfix, ?_⟩
  intro n hn
  cases n with
  | zero => exact absurd hn (by decide)
  | succ m =>
    rw [iterateEsc]
    rw [show fatalEscalate (s, x).1 (s, x).2 = fatalEscalate s x from rfl]
    rw [iterateEsc_fixed hfix m, hstep]

/-- Witness for C8: escalating a fresh Unchecked error three times from
the empty escalation state performs exactly one termination effect. -/
theorem claim_C8_witness :
    fatalEscalate
      (fatalEscalate ⟨0, [], []⟩
        ⟨ErrorValue.mk ErrorKind.Unchecked "ASSERTION" "bad" ["main"] none, none⟩).1
      (fatalEscalate ⟨0, [], []⟩
        ⟨ErrorValue.mk ErrorKind.Unchecked "ASSERTION" "bad" ["main"] none, none⟩).2 =
      fatalEscalate ⟨0, [], []⟩
        ⟨ErrorValue.mk ErrorKind.Unchecked "ASSERTION" "bad" ["main"] none, none⟩ ∧
    (iterateEsc 3 (⟨0, [], []⟩,
        ⟨ErrorValue.mk ErrorKind.Unchecked "ASSERTION" "bad" ["main"] none, none⟩)).1.terminations =
      [] ++ [ErrorValue.mk ErrorKind.Unchecked "ASSERTION" "bad" ["main"] none] :=
  ⟨(claim_C8 ⟨0, [], []⟩
      ⟨ErrorValue.mk ErrorKind.Unchecked "ASSERTION" "bad" ["main"] none, none⟩ rfl).1,
   (claim_C8 ⟨0, [], []⟩
      ⟨ErrorValue.mk ErrorKind.Unchecked "ASSERTION" "bad" ["main"] none, none⟩ rfl).2
     3 (by decide)⟩

end RecoveryRuntime
